import Mathlib

/-!
A shallow embedding of the non-GUI core of `liveusb/gui.py` (Antergos
liveusb-creator), translated function by function from the Python source.

Conventions of the embedding:
* Python `None` vs numbers in the download progress fields is modelled by
  `PyNum` (`none` / `num`); byte counts and the `-1.0` sentinels are
  integral, so numbers are `Int`.
* Qt signal emissions and the external `set_iso` call are modelled as a
  trace: each mutator returns the new state together with the list of
  emission names it produced, in source order.
* gettext translation `_(...)` is modelled as the identity on message ids.
* Python list indexing `xs[i]` (negative indices allowed, `IndexError`
  on out of range) is `pyGetElem`; a raised exception is `Except.error`.
* Python object identity of freshly constructed `USBDrive` wrappers is
  modelled by an allocation counter `objId` (the class defines no
  structural equality, so `==` between distinct wrappers is `False`).
-/

/-- Python value held by `ReleaseDownload._current` / `_maximum`:
either `None` or a number (all numbers occurring here are integral). -/
inductive PyNum where
  | none : PyNum
  | num : Int → PyNum
deriving DecidableEq, Repr

/-- State of one `ReleaseDownload` object (`gui.py` lines 111-206),
plus the `beingCancelled` flag of its `ReleaseDownloadThread`. -/
structure DLState where
  running : Bool
  current : PyNum
  maximum : PyNum
  path : String
  beingCancelled : Bool
deriving DecidableEq, Repr

/-- `ReleaseDownload.path` setter: writes only when the value differs;
calls the external `live.set_iso` and emits `pathChanged` in that order. -/
def dlPathSet (s : DLState) (v : String) : DLState × List String :=
  if s.path ≠ v then ({ s with path := v }, ["set_iso", "pathChanged"])
  else (s, [])

/-- `ReleaseDownload.reset`: restores the idle sentinels, then emits
`runningChanged`, `currentChanged`, `maximumChanged` unconditionally
(the `path` write goes through the guarded setter first). -/
def dlReset (s : DLState) : DLState × List String :=
  let s := { s with running := false, current := .num (-1), maximum := .num (-1) }
  let (s, em) := dlPathSet s ""
  (s, em ++ ["runningChanged", "currentChanged", "maximumChanged"])

/-- `ReleaseDownload.start(size=None)`: records the declared maximum
(possibly `None`) and marks running; both emissions are unconditional. -/
def dlStart (s : DLState) (size : PyNum) : DLState × List String :=
  ({ s with maximum := size, running := true }, ["maximumChanged", "runningChanged"])

/-- `ReleaseDownload.update(amount_read)`: `if self._current < amount_read`.
Comparing Python `None < int` raises `TypeError`, hence the `Except`. -/
def dlUpdate (s : DLState) (amt : Int) : Except String (DLState × List String) :=
  match s.current with
  | .none => .error "TypeError"
  | .num c =>
      if c < amt then .ok ({ s with current := .num amt }, ["currentChanged"])
      else .ok (s, [])

/-- `ReleaseDownload.end`: `self._current = self._maximum` unconditionally,
emit `currentChanged`, stop running, emit `runningChanged`. -/
def dlEnd (s : DLState) : DLState × List String :=
  ({ s with current := s.maximum, running := false },
   ["currentChanged", "runningChanged"])

/-- `ReleaseDownload.cancel`: sets the download thread's `beingCancelled`
flag (`cancelDownload`), then `reset()`. -/
def dlCancel (s : DLState) : DLState × List String :=
  dlReset { s with beingCancelled := true }

/-- Sequencing of `update` calls, threading state and the emission trace. -/
def runUpdates (s : DLState) (vs : List Int) : Except String (DLState × List String) :=
  match vs with
  | [] => .ok (s, [])
  | v :: rest =>
      match dlUpdate s v with
      | .error e => .error e
      | .ok (s1, em) =>
          match runUpdates s1 rest with
          | .error e => .error e
          | .ok (s2, em2) => .ok (s2, em ++ em2)

/-- The pre-start idle values of a download job (§4.1 `Reset()` values):
not running, both progress sentinels, empty path. -/
def dlIdle (s : DLState) : Prop :=
  s.running = false ∧ s.current = .num (-1) ∧ s.maximum = .num (-1) ∧ s.path = ""

instance (s : DLState) : Decidable (dlIdle s) := by
  unfold dlIdle; infer_instance

/-- State of one `ReleaseWriter` object (`gui.py` lines 239-315). The
float progress fraction is modelled as `Int` (no claim depends on
fractional progress values; only the `-1.0` and `0.0` writes occur here). -/
structure WriterState where
  running : Bool
  current : Int
  status : String
  finished : Bool
deriving DecidableEq, Repr

/-- State of one `Release` entry (`gui.py` lines 318-546) restricted to
the fields the status machine and the write path read: the message
lists, the download path and running flag, and the writer sub-object. -/
structure EntryState where
  info : List String
  warning : List String
  error : List String
  path : String
  downloadRunning : Bool
  writer : WriterState
deriving DecidableEq, Repr

/-- `ReleaseWriter.running` setter: guarded write plus `runningChanged`. -/
def wSetRunning (e : EntryState) (v : Bool) : EntryState × List String :=
  if e.writer.running ≠ v then
    ({ e with writer.running := v }, ["runningChanged"])
  else (e, [])

/-- `ReleaseWriter.status` setter: guarded write plus `statusChanged`. -/
def wSetStatus (e : EntryState) (v : String) : EntryState × List String :=
  if e.writer.status ≠ v then
    ({ e with writer.status := v }, ["statusChanged"])
  else (e, [])

/-- `ReleaseWriter.finished` setter: guarded write plus `finishedChanged`. -/
def wSetFinished (e : EntryState) (v : Bool) : EntryState × List String :=
  if e.writer.finished ≠ v then
    ({ e with writer.finished := v }, ["finishedChanged"])
  else (e, [])

/-- `Release.addError`: append only when the message is not yet present. -/
def addError (e : EntryState) (m : String) : EntryState × List String :=
  if m ∈ e.error then (e, [])
  else ({ e with error := e.error ++ [m] }, ["errorChanged"])

/-- `Release.addInfo`: append only when the message is not yet present. -/
def addInfo (e : EntryState) (m : String) : EntryState × List String :=
  if m ∈ e.info then (e, [])
  else ({ e with info := e.info ++ [m] }, ["infoChanged"])

/-- `ReleaseWriter.run`: set `running`/`progress` directly with
unconditional emissions, then `status = 'Writing'` through the guarded
setter, then dispatch the worker (the worker body is `writerThreadRun`). -/
def writerRun (e : EntryState) : EntryState × List String :=
  let e := { e with writer.running := true, writer.current := 0 }
  let (e, em) := wSetStatus e "Writing"
  (e, ["runningChanged", "currentChanged"] ++ em)

/-- `ReleaseWriterThread.run` / `ddImage`: `some m` means `dd_image`
raised with message `m` before the post-write assignments ran; `none`
means it returned normally. Either way the thread ends with
`self.parent.running = False` through the guarded setter. -/
def writerThreadRun (e : EntryState) (outcome : Option String) :
    EntryState × List String :=
  match outcome with
  | some m =>
      let (e, em1) := addError e m
      let (e, em2) := wSetRunning e false
      (e, em1 ++ em2)
  | none =>
      let (e, em1) := wSetStatus e "Finished!"
      let (e, em2) := wSetFinished e true
      let (e, em3) := wSetRunning e false
      (e, em1 ++ em2 ++ em3)

/-- `Release.readyToWrite`: `len(self.path) != 0`. -/
def readyToWrite (e : EntryState) : Bool :=
  e.path.length != 0

/-- `Release.status` (`gui.py` lines 506-519): the cascading
conditionals, translated clause by clause. -/
def releaseStatus (e : EntryState) : String :=
  if !e.writer.finished && !e.downloadRunning && !(readyToWrite e)
      && !e.writer.running && e.error.length == 0 then "Starting"
  else if e.downloadRunning then "Downloading"
  else if e.error.length > 0 then "Error"
  else if readyToWrite e && !e.writer.running && !e.writer.finished then
    "Ready to write"
  else if e.writer.status != "" then e.writer.status
  else "Finished"

/-- `Release.write`: clear the three message lists with their
notifications, add the fixed informational message, then start the
writer. (The info text is the configuration-expanded restore notice.) -/
def releaseWrite (e : EntryState) (infoMsg : String) : EntryState × List String :=
  let e := { e with info := [], warning := [], error := [] }
  let em0 := ["infoChanged", "errorChanged", "warningChanged"]
  let (e, em1) := addInfo e infoMsg
  let (e, em2) := writerRun e
  (e, em0 ++ em1 ++ em2)

/-- Modelled from the spec (§4.4): the `Status` decision table as the
spec states it, a pure function of the six-field snapshot, first match
wins. -/
structure StatusSnapshot where
  writerFinished : Bool
  downloaderRunning : Bool
  ready : Bool
  writerRunning : Bool
  errorListEmpty : Bool
  writerStatus : String
deriving DecidableEq, Repr

/-- Modelled from the spec (§4.4): rows 1-6 of the decision table. -/
def specStatusTable (t : StatusSnapshot) : String :=
  if !t.writerFinished && !t.downloaderRunning && !t.ready
      && !t.writerRunning && t.errorListEmpty then "Starting"
  else if t.downloaderRunning then "Downloading"
  else if !t.errorListEmpty then "Error"
  else if t.ready && !t.writerRunning && !t.writerFinished then
    "Ready to write"
  else if t.writerStatus != "" then t.writerStatus
  else "Finished"

/-- The six-field snapshot the spec's decision table reads, extracted
from an entry the way `Release.status` reads its own fields. -/
def snapshotOf (e : EntryState) : StatusSnapshot :=
  ⟨e.writer.finished, e.downloadRunning, readyToWrite e,
   e.writer.running, e.error.isEmpty, e.writer.status⟩

/-! ### Drive inventory (`USBDrive`, `LiveUSBData`) -/

/-- One entry of `live.drives`: the OS-reported device info read by
`USBDeviceCallback` (device id, friendly name, raw size, ISO9660 mark). -/
structure RawDrive where
  device : String
  friendlyName : String
  size : Nat
  isIso9660 : Bool
deriving DecidableEq, Repr

/-- One `USBDrive` wrapper object (`gui.py` lines 663-694). `objId`
models Python object identity: the class defines no `__eq__`, so list
comparison compares wrappers by identity, never by content. -/
structure UsbDrive where
  objId : Nat
  text : String
  drive : RawDrive
  beingRestored : Bool
deriving DecidableEq, Repr

/-- What `self.live.drive` currently holds: `None`, a device-id string
(assigned by the `currentDrive` setter), or a whole info object
(assigned inside the reconciliation loop). -/
inductive LiveDriveRef where
  | none : LiveDriveRef
  | device : String → LiveDriveRef
  | info : RawDrive → LiveDriveRef
deriving DecidableEq, Repr

/-- Python truthiness of `self.live.drive` as read by `not self.live.drive`. -/
def liveDriveTruthy : LiveDriveRef → Bool
  | .none => false
  | .device d => d ≠ ""
  | .info _ => true

/-- The per-release fields touched by the `currentDrive` setter:
`r.writer.finished` (never touched by it, kept to observe that), and the
plain Python attribute created by `r.download.finished = False` on the
`ReleaseDownload` object, which no other code reads or writes. -/
structure RelJob where
  writerFinished : Bool
  downloadFinishedAttr : Bool
deriving DecidableEq, Repr

/-- State of `LiveUSBData` restricted to the fields the drive paths
touch. `nextObjId` is the allocation counter backing `UsbDrive.objId`. -/
structure AppState where
  usbDrives : List UsbDrive
  currentDrive : Int
  driveToRestore : Option UsbDrive
  liveDrive : LiveDriveRef
  releases : List RelJob
  nextObjId : Nat
deriving DecidableEq, Repr

/-- Python list subscript `xs[i]`: non-negative indices from the front,
negative indices from the back, `none` models a raised `IndexError`. -/
def pyGetElem {α : Type} (xs : List α) (i : Int) : Option α :=
  if 0 ≤ i then xs.get? i.toNat
  else if -(xs.length : Int) ≤ i then xs.get? (xs.length - i.natAbs)
  else Option.none

/-- `LiveUSBData.currentDrive` setter (`gui.py` lines 855-871), including
the `r.download.finished = False` loop over `releaseData`. The clamp
tests `value > len(self._usbDrives)` exactly as written; the subscript
`self._usbDrives[self._currentDrive]` may raise `IndexError`. -/
def setCurrentDrive (s : AppState) (value : Int) :
    Except String (AppState × List String) :=
  if s.usbDrives.length == 0 then
    .ok ({ s with liveDrive := .none, currentDrive := -1 },
         ["currentDriveChanged"])
  else
    let value := if value > (s.usbDrives.length : Int) then 0 else value
    if s.currentDrive ≠ value then
      match pyGetElem s.usbDrives value with
      | Option.none => .error "IndexError"
      | some d =>
          .ok ({ s with currentDrive := value,
                        liveDrive := .device d.drive.device,
                        releases := s.releases.map
                          (fun r => { r with downloadFinishedAttr := false }) },
               ["currentDriveChanged"])
    else .ok (s, [])

/-- One decimal digit of `size / den` as in the `'%.1f'` size suffix.
(CPython formats the binary-float quotient with round-half-even; this
renders the truncated exact quotient — the claims never depend on the
digit, only on the suffix text being a deterministic function of size.) -/
def oneDec (size den : Nat) : String :=
  let t := size * 10 / den
  toString (t / 10) ++ "." ++ toString (t % 10)

/-- The size-suffix formatting of `USBDeviceCallback` (`gui.py` lines
776-789): 1000-based steps, one decimal, B/KB/MB/GB/TB. -/
def formatDriveName (name : String) (size : Nat) : String :=
  if size < 1000 then name ++ " (" ++ oneDec size 1 ++ " B)"
  else if size < 1000 ^ 2 then name ++ " (" ++ oneDec size 1000 ++ " KB)"
  else if size < 1000 ^ 3 then name ++ " (" ++ oneDec size (1000 ^ 2) ++ " MB)"
  else if size < 1000 ^ 4 then name ++ " (" ++ oneDec size (1000 ^ 3) ++ " GB)"
  else name ++ " (" ++ oneDec size (1000 ^ 4) ++ " TB)"

/-- The `tmpDrives` construction loop: a fresh `USBDrive` wrapper per
reported device (`_beingRestored = False` in `USBDrive.__init__`),
with fresh object identities starting at `base`. -/
def buildTmpDrives (base : Nat) (raw : List RawDrive) : List UsbDrive :=
  (List.range raw.length).zip raw |>.map fun p =>
    { objId := base + p.1,
      text := formatDriveName p.2.friendlyName p.2.size,
      drive := p.2,
      beingRestored := false }

/-- Python `tmpDrives != self._usbDrives` (negated): element-wise object
identity, since `USBDrive` defines no structural equality. -/
def pyListEqUsb (xs ys : List UsbDrive) : Bool :=
  xs.length == ys.length &&
    (xs.zip ys).all fun p => p.1.objId == p.2.objId

/-- `self._driveToRestore and self._driveToRestore.beingRestored`. -/
def restoreInProgress (s : AppState) : Bool :=
  match s.driveToRestore with
  | some d => d.beingRestored
  | Option.none => false

/-- The `for i, drive in enumerate(self._usbDrives)` reconciliation loop
(`gui.py` lines 800-806): re-select the previously selected device
through the `currentDrive` setter, remember any ISO9660-marked drive as
the restore candidate, and default the external target when nothing is
selected and `self.live.drive` is unset. -/
def reconcileLoop (prevSel : String) :
    Nat → List UsbDrive → AppState → List String →
    Except String (AppState × List String)
  | _, [], s, em => .ok (s, em)
  | i, d :: rest, s, em =>
      match (if d.drive.device == prevSel then setCurrentDrive s (Int.ofNat i)
             else .ok (s, [])) with
      | .error e => .error e
      | .ok (s, em1) =>
          let s := if d.drive.isIso9660 then { s with driveToRestore := some d }
                   else s
          let s := if s.currentDrive == -1 && !(liveDriveTruthy s.liveDrive) then
                     { s with liveDrive := .info d.drive }
                   else s
          reconcileLoop prevSel (i + 1) rest s (em ++ em1)

/-- `LiveUSBData.USBDeviceCallback` (`gui.py` lines 764-809): read the
previously selected device id, return early while a restore is in
progress, build the fresh candidate wrappers, skip when the identity
comparison deems the lists equal, otherwise commit the new list, clear
and recompute the restore candidate and selection, and emit the final
`currentDriveChanged` / `driveToRestoreChanged` pair. -/
def usbDeviceCallback (s : AppState) (raw : List RawDrive) :
    Except String (AppState × List String) :=
  match (if s.usbDrives.length > 0 then
           match pyGetElem s.usbDrives s.currentDrive with
           | some d => Except.ok d.drive.device
           | Option.none => Except.error "IndexError"
         else Except.ok "") with
  | .error e => .error e
  | .ok previouslySelected =>
      if restoreInProgress s then .ok (s, [])
      else
        let tmp := buildTmpDrives s.nextObjId raw
        let s1 := { s with nextObjId := s.nextObjId + raw.length }
        if pyListEqUsb tmp s1.usbDrives then .ok (s1, [])
        else
          let s2 := { s1 with usbDrives := tmp, driveToRestore := Option.none }
          match setCurrentDrive s2 (-1) with
          | .error e => .error e
          | .ok (s3, em1) =>
              match reconcileLoop previouslySelected 0 tmp s3
                      (["usbDrivesChanged"] ++ em1) with
              | .error e => .error e
              | .ok (s4, em2) =>
                  .ok (s4, em2 ++ ["currentDriveChanged", "driveToRestoreChanged"])

/-! ### Catalog view accessor (`ReleaseListProxy.get`) -/

/-- The static data of one catalog release that `get` touches. -/
structure RelData where
  name : String
  summary : String
  source : String
deriving DecidableEq, Repr

/-- `Release.category` (`gui.py` lines 449-458): `'main'` for sources in
the configuration's main-category list, the two fixed labels for Spins
and Labs, `'<b>Other</b>'` otherwise (gettext modelled as identity). -/
def releaseCategory (mainCats : List String) (source : String) : String :=
  if source ∈ mainCats then "main"
  else if source = "Spins" then
    "<b>Fedora Spins </b> &nbsp; Alternative desktops for Fedora"
  else if source = "Labs" then
    "<b>Fedora Labs </b> &nbsp; Functional bundles for Fedora"
  else "<b>Other</b>"

/-- `ReleaseListProxy.get(i)` (`gui.py` lines 585-591): bounds-check the
raw index against the underlying `releaseData` list, reject entries with
a falsy `category`, otherwise return the entry at position `i`. -/
def proxyGet (mainCats : List String) (data : List RelData) (i : Int) :
    Option RelData :=
  if i < 0 ∨ (data.length : Int) ≤ i then Option.none
  else
    match data.get? i.toNat with
    | some r =>
        if releaseCategory mainCats r.source = "" then Option.none else some r
    | Option.none => Option.none

/-! ### Fixtures: concrete states used by counterexamples and witnesses -/

/-- A reported 1 GB drive with the given device id. -/
def mkInfo (dev : String) : RawDrive :=
  ⟨dev, "Drive", 1000000000, false⟩

/-- A committed `USBDrive` wrapper for `mkInfo dev` with identity `k`
(its text is what `formatDriveName` produces for the same info). -/
def mkWrap (k : Nat) (dev : String) : UsbDrive :=
  ⟨k, "Drive (1.0 GB)", mkInfo dev, false⟩

/-- Inventory with three committed drives, the first selected. -/
def threeDrives : AppState :=
  ⟨[mkWrap 0 "sda", mkWrap 1 "sdb", mkWrap 2 "sdc"], 0, Option.none,
   .device "sda", [], 3⟩

/-- Inventory with two committed drives, the first selected, and one
release whose writer already finished. -/
def twoDrivesOneFinished : AppState :=
  ⟨[mkWrap 0 "sda", mkWrap 1 "sdb"], 0, Option.none, .device "sda",
   [⟨true, true⟩], 2⟩

/-- Inventory with one committed drive `sdb` selected. -/
def oneDrive : AppState :=
  ⟨[mkWrap 0 "sdb"], 0, Option.none, .device "sdb", [], 1⟩

/-- The ISO9660-marked wrapper for the restore scenario. -/
def restoreWrap : UsbDrive :=
  ⟨0, "Drive (1.0 GB)", ⟨"sdb", "Drive", 1000000000, true⟩, true⟩

/-- Inventory whose single drive is pending restore and being restored. -/
def restoringState : AppState :=
  ⟨[restoreWrap], 0, some restoreWrap, .device "sdb", [], 1⟩

/-- Idle download job: the pre-start sentinel values. -/
def idleDL : DLState :=
  ⟨false, .num (-1), .num (-1), "", false⟩

/-- A download mid-flight whose declared maximum was `None`. -/
def unknownMaxDL : DLState :=
  ⟨true, .num 500, .none, "", false⟩

/-- An entry that is ready to write and otherwise quiescent. -/
def readyEntry : EntryState :=
  ⟨[], [], [], "/tmp/foo.iso", false, ⟨false, -1, "", false⟩⟩

/-! ### Helper lemmas -/

/-- `ReleaseWriter.run` in closed form: running, progress zeroed,
status `"Writing"`, finished untouched. -/
theorem writerRun_spec (e : EntryState) :
    (writerRun e).1 =
      { e with writer := ⟨true, 0, "Writing", e.writer.finished⟩ } := by
  rcases e with ⟨i, w, err, p, dr, ⟨r, c, st, f⟩⟩
  simp only [writerRun, wSetStatus]
  split <;> simp_all

/-- `addError` appends a fresh message. -/
theorem addError_not_mem (e : EntryState) (m : String) (h : m ∉ e.error) :
    (addError e m).1 = { e with error := e.error ++ [m] } := by
  simp [addError, h]

/-- `addError` ignores a duplicate message. -/
theorem addError_mem (e : EntryState) (m : String) (h : m ∈ e.error) :
    (addError e m).1 = e := by
  simp [addError, h]

/-- The guarded `running` setter in closed form. -/
theorem wSetRunning_spec (e : EntryState) (v : Bool) :
    (wSetRunning e v).1 = { e with writer.running := v } := by
  rcases e with ⟨i, w, err, p, dr, ⟨r, c, st, f⟩⟩
  simp only [wSetRunning]
  split <;> simp_all

/-- One failing write pass: `ReleaseWriter.run` followed by the worker
raising `m` out of `dd_image`. -/
def writeFailOnce (e : EntryState) (m : String) : EntryState :=
  (writerThreadRun (writerRun e).1 (some m)).1

/-- Two failing write passes with the same message. -/
def writeFailTwice (e : EntryState) (m : String) : EntryState :=
  writeFailOnce (writeFailOnce e m) m

/-- Closed form of a failing pass on a fresh message. -/
theorem writeFailOnce_spec (e : EntryState) (m : String) (h : m ∉ e.error) :
    writeFailOnce e m =
      { e with error := e.error ++ [m],
               writer := ⟨false, 0, "Writing", e.writer.finished⟩ } := by
  rcases e with ⟨i, w, err, p, dr, ⟨r, c, st, f⟩⟩
  simp only [writeFailOnce, writerThreadRun, writerRun, wSetStatus, wSetRunning,
    addError] at *
  split <;> split <;> simp_all

/-- Closed form of a failing pass on an already-recorded message. -/
theorem writeFailOnce_spec_mem (e : EntryState) (m : String) (h : m ∈ e.error) :
    writeFailOnce e m =
      { e with writer := ⟨false, 0, "Writing", e.writer.finished⟩ } := by
  rcases e with ⟨i, w, err, p, dr, ⟨r, c, st, f⟩⟩
  simp only [writeFailOnce, writerThreadRun, writerRun, wSetStatus, wSetRunning,
    addError] at *
  split <;> split <;> simp_all

/-- A non-empty error list forces the `Error` branch of the status
cascade as soon as the downloader is idle. -/
theorem releaseStatus_error (e : EntryState) (hdl : e.downloadRunning = false)
    (herr : e.error ≠ []) : releaseStatus e = "Error" := by
  rcases e with ⟨i, w, err, p, dr, wr⟩
  cases err with
  | nil => exact absurd rfl herr
  | cons a l => subst hdl; simp [releaseStatus]

/-- `releaseCategory` never returns the empty string: all four branches
produce non-empty literals. -/
theorem releaseCategory_ne_empty (mainCats : List String) (source : String) :
    releaseCategory mainCats source ≠ "" := by
  unfold releaseCategory
  split
  · decide
  · split
    · decide
    · split <;> decide

/-- Seeding `List.foldl max` never decreases the seed. -/
theorem foldlMax_seed_le (q : List Int) : ∀ c : Int, c ≤ q.foldl max c := by
  induction q with
  | nil => intro c; exact le_refl c
  | cons v rest ih =>
      intro c
      exact le_trans (le_max_left c v) (ih (max c v))

/-- `runUpdates` in closed form: the current value is the running
maximum of the seed and the amounts. -/
theorem runUpdates_foldl (r : Bool) (mx : PyNum) (pa : String) (bc : Bool) :
    ∀ (p : List Int) (c : Int), ∃ em,
      runUpdates ⟨r, .num c, mx, pa, bc⟩ p =
        .ok (⟨r, .num (p.foldl max c), mx, pa, bc⟩, em) := by
  intro p
  induction p with
  | nil => intro c; exact ⟨[], rfl⟩
  | cons v rest ih =>
      intro c
      obtain ⟨em, hem⟩ := ih (max c v)
      by_cases h : c < v
      · refine ⟨"currentChanged" :: em, ?_⟩
        have hmax : max c v = v := max_eq_right (le_of_lt h)
        simp only [runUpdates, dlUpdate, if_pos h, List.foldl]
        rw [hmax] at hem ⊢
        rw [hem]
        rfl
      · refine ⟨em, ?_⟩
        have hmax : max c v = c := max_eq_left (not_lt.mp h)
        simp only [runUpdates, dlUpdate, if_neg h, List.foldl]
        rw [hmax] at hem ⊢
        rw [hem]
        rfl

/-! ### Claim theorems -/

/-- C1: for every entry field snapshot, `Release.status` returns exactly
the value of the spec's §4.4 decision table evaluated in its stated
precedence order (first match wins: Starting, Downloading, Error, Ready
to write, writer.status verbatim, Finished), and reading it twice on the
same snapshot yields the same result. -/
theorem status_matches_spec_table (e : EntryState) :
    releaseStatus e = specStatusTable (snapshotOf e) ∧
    releaseStatus e = releaseStatus e := by
  refine ⟨?_, rfl⟩
  rcases e with ⟨i, w, err, p, dr, ⟨r, c, st, f⟩⟩
  cases err <;>
    simp [releaseStatus, specStatusTable, snapshotOf, readyToWrite]

/-- C2 evaluation: with three committed drives and index 0 selected,
requesting index 3 (equal to the length) is not clamped — the code runs
into `IndexError` on `self._usbDrives[3]` with the selected index
already set to 3 — and requesting index -2 commits -2, which is neither
-1 nor a valid index; the claimed invariant and clamp both fail. -/
theorem currentDrive_setter_bounds_violation :
    setCurrentDrive threeDrives 3 = .error "IndexError" ∧
    setCurrentDrive threeDrives (-2) =
      .ok ({ threeDrives with currentDrive := -2, liveDrive := .device "sdb" },
           ["currentDriveChanged"]) :=
  ⟨rfl, rfl⟩

/-- C3 evaluation: changing the selection to a genuinely different index
runs `r.download.finished = False` over the releases, which creates a
dead attribute on the download object; the writer's `finished` flag of
the release stays `true`, contrary to the claim. -/
theorem currentDrive_setter_leaves_writer_finished :
    setCurrentDrive twoDrivesOneFinished 1 =
      .ok ({ twoDrivesOneFinished with
               currentDrive := 1, liveDrive := .device "sdb",
               releases := [⟨true, false⟩] },
           ["currentDriveChanged"]) ∧
    (twoDrivesOneFinished.releases.map fun r => r.writerFinished) = [true] :=
  ⟨rfl, rfl⟩

/-- C4 evaluation: a reconciliation pass whose candidate list has exactly
the same device id, size and label as the committed one still commits a
fresh wrapper list and emits five notifications (the `!=` comparison is
object identity, so a non-empty candidate list never compares equal);
the second conjunct records that the candidate content was identical. -/
theorem usb_callback_identical_list_still_notifies :
    usbDeviceCallback oneDrive [mkInfo "sdb"] =
      .ok ({ oneDrive with usbDrives := [mkWrap 1 "sdb"], nextObjId := 2 },
           ["usbDrivesChanged", "currentDriveChanged", "currentDriveChanged",
            "currentDriveChanged", "driveToRestoreChanged"]) ∧
    (oneDrive.usbDrives.map fun d => (d.text, d.drive)) =
      ([mkWrap 1 "sdb"].map fun d => (d.text, d.drive)) :=
  ⟨rfl, rfl⟩

/-- C5: while a restore is in progress on the pending-restore drive, a
reconciliation pass returns with the drive list, the selected index and
the pending-restore reference all unchanged (the whole state is
returned as-is) and emits no notifications. -/
theorem usb_callback_skips_during_restore (s : AppState) (raw : List RawDrive)
    (d : UsbDrive) (hd : s.driveToRestore = some d)
    (hres : d.beingRestored = true)
    (hidx : s.usbDrives = [] ∨
      ∃ x, pyGetElem s.usbDrives s.currentDrive = some x) :
    usbDeviceCallback s raw = .ok (s, []) := by
  have hri : restoreInProgress s = true := by
    unfold restoreInProgress; rw [hd]; exact hres
  unfold usbDeviceCallback
  rcases hidx with h | ⟨x, hx⟩
  · rw [h]; simp [hri]
  · by_cases hlen : s.usbDrives.length > 0
    · simp [hlen, hx, hri]
    · simp [hlen, hri]

/-- C5 witness: the concrete restoring inventory is returned unchanged
with no emissions. -/
theorem usb_callback_skips_during_restore_witness :
    usbDeviceCallback restoringState [mkInfo "sdc"] = .ok (restoringState, []) :=
  usb_callback_skips_during_restore restoringState [mkInfo "sdc"] restoreWrap
    rfl rfl (Or.inr ⟨restoreWrap, rfl⟩)

/-- C6: when `dd_image` raises with message `m` (even across two write
passes raising the same message), the owning entry's error list holds
`m` exactly once, the writer's running flag is false, its finished flag
and status are unchanged from before the error (the status stays the
`"Writing"` set by `run`), and the derived status is `"Error"`. -/
theorem writer_error_semantics (e : EntryState) (m : String)
    (hm : m ∉ e.error) (hdl : e.downloadRunning = false) :
    (writeFailOnce e m).error.count m = 1 ∧
    (writeFailTwice e m).error.count m = 1 ∧
    (writeFailOnce e m).writer.running = false ∧
    (writeFailTwice e m).writer.running = false ∧
    (writeFailOnce e m).writer.finished = ((writerRun e).1).writer.finished ∧
    (writeFailOnce e m).writer.status = ((writerRun e).1).writer.status ∧
    releaseStatus (writeFailOnce e m) = "Error" ∧
    releaseStatus (writeFailTwice e m) = "Error" := by
  have h1 := writeFailOnce_spec e m hm
  have hmem : m ∈ (writeFailOnce e m).error := by
    rw [h1]; simp
  have h2 := writeFailOnce_spec_mem (writeFailOnce e m) m hmem
  have hcnt : (writeFailOnce e m).error.count m = 1 := by
    rw [h1]
    simp [List.count_append, List.count_eq_zero.mpr hm]
  have hrun := writerRun_spec e
  refine ⟨hcnt, ?_, ?_, ?_, ?_, ?_, ?_, ?_⟩
  · unfold writeFailTwice; rw [h2]; exact hcnt
  · rw [h1]
  · unfold writeFailTwice; rw [h2]
  · rw [h1, hrun]
  · rw [h1, hrun]
  · refine releaseStatus_error _ ?_ ?_
    · rw [h1]; exact hdl
    · rw [h1]; simp
  · refine releaseStatus_error _ ?_ ?_
    · unfold writeFailTwice; rw [h2, h1]; exact hdl
    · unfold writeFailTwice; rw [h2, h1]; simp

/-- C6 witness: the ready-to-write entry after one and two failing write
passes with message `"disk full"`. -/
theorem writer_error_semantics_witness :
    (writeFailOnce readyEntry "disk full").error.count "disk full" = 1 ∧
    (writeFailTwice readyEntry "disk full").error.count "disk full" = 1 ∧
    (writeFailOnce readyEntry "disk full").writer.running = false ∧
    (writeFailTwice readyEntry "disk full").writer.running = false ∧
    (writeFailOnce readyEntry "disk full").writer.finished =
      ((writerRun readyEntry).1).writer.finished ∧
    (writeFailOnce readyEntry "disk full").writer.status =
      ((writerRun readyEntry).1).writer.status ∧
    releaseStatus (writeFailOnce readyEntry "disk full") = "Error" ∧
    releaseStatus (writeFailTwice readyEntry "disk full") = "Error" :=
  writer_error_semantics readyEntry "disk full" (by simp [readyEntry]) rfl

/-- C7: for every seed and every sequence of `update` amounts, the
current value after the calls of a prefix `p` equals the running maximum
of the seed and the amounts of `p`, hence extending the sequence by any
suffix `q` never decreases the observed value. -/
theorem download_update_running_max (r : Bool) (mx : PyNum) (pa : String)
    (bc : Bool) (c : Int) (p q : List Int) :
    (∃ em, runUpdates ⟨r, .num c, mx, pa, bc⟩ p =
        .ok (⟨r, .num (p.foldl max c), mx, pa, bc⟩, em)) ∧
    p.foldl max c ≤ (p ++ q).foldl max c := by
  refine ⟨runUpdates_foldl r mx pa bc p c, ?_⟩
  rw [List.foldl_append]
  exact foldlMax_seed_le q _

/-- C8 counterexample: on a job whose declared maximum is the unknown
sentinel `None`, `end()` does not leave the current value alone — it
overwrites the current 500 with `None`. -/
theorem dl_end_unknown_max_counterexample :
    unknownMaxDL.maximum = PyNum.none ∧
    unknownMaxDL.current = PyNum.num 500 ∧
    (dlEnd unknownMaxDL).1.current ≠ PyNum.num 500 := by
  refine ⟨rfl, rfl, ?_⟩
  decide

/-- C8 amended: `end()` marks the tracker not-running and assigns
current := maximum unconditionally; when the maximum is the `None`
sentinel recorded by `start` with no size, the current value becomes
`None` as well (it is overwritten, not left unchanged). -/
theorem dl_end_amended (s : DLState) :
    dlEnd s = ({ s with current := s.maximum, running := false },
               ["currentChanged", "runningChanged"]) ∧
    (dlStart s PyNum.none).1.maximum = PyNum.none :=
  ⟨rfl, rfl⟩

/-- C9 counterexample: cancelling an idle download job emits a non-empty
notification trace (three unconditional emissions from `reset`). -/
theorem dl_cancel_idle_counterexample :
    dlIdle idleDL ∧ (dlCancel idleDL).2 ≠ [] := by
  refine ⟨⟨rfl, rfl, rfl, rfl⟩, ?_⟩
  decide

/-- C9 amended: `cancel()` on an idle download job leaves the observable
fields (running, current, maximum, path) unchanged and triggers no
external `set_iso` call, but unconditionally emits `runningChanged`,
`currentChanged` and `maximumChanged`, and sets the download thread's
cancellation flag. -/
theorem dl_cancel_idle_amended (s : DLState) (h : dlIdle s) :
    dlCancel s = ({ s with beingCancelled := true },
                  ["runningChanged", "currentChanged", "maximumChanged"]) := by
  obtain ⟨h1, h2, h3, h4⟩ := h
  rcases s with ⟨r, c, mx, pa, bc⟩
  simp only at h1 h2 h3 h4
  subst h1; subst h2; subst h3; subst h4
  rfl

/-- C9 witness: the amended statement at the concrete idle job. -/
theorem dl_cancel_idle_amended_witness :
    dlCancel idleDL = ({ idleDL with beingCancelled := true },
                       ["runningChanged", "currentChanged", "maximumChanged"]) :=
  dl_cancel_idle_amended idleDL ⟨rfl, rfl, rfl, rfl⟩

/-- C10: the catalog view's indexed accessor returns the entry at
position `i` of the underlying catalog list for every in-range `i`
(the category guard never fires because `category` is never empty), and
returns `None` without faulting for every negative or too-large `i`. -/
theorem proxy_get_bounds (mainCats : List String) (data : List RelData)
    (i : Int) :
    (0 ≤ i → i < (data.length : Int) →
      proxyGet mainCats data i = data.get? i.toNat ∧
      (proxyGet mainCats data i).isSome) ∧
    (i < 0 ∨ (data.length : Int) ≤ i →
      proxyGet mainCats data i = Option.none) := by
  constructor
  · intro h0 hlt
    have hguard : ¬(i < 0 ∨ (data.length : Int) ≤ i) := by omega
    have hnat : i.toNat < data.length := by omega
    have hr := List.get?_eq_get hnat
    unfold proxyGet
    rw [if_neg hguard, hr]
    constructor
    · simp [releaseCategory_ne_empty mainCats]
    · simp [releaseCategory_ne_empty mainCats]
  · intro h
    unfold proxyGet
    rw [if_pos h]

/-- C10 witness: in-range index 1 of a two-entry catalog returns the
second entry; index 5 of a one-entry catalog returns `None`. -/
theorem proxy_get_bounds_witness :
    proxyGet [] [⟨"a", "s", "x"⟩, ⟨"b", "t", "Local"⟩] 1 =
      some ⟨"b", "t", "Local"⟩ ∧
    proxyGet [] [⟨"a", "s", "x"⟩] 5 = Option.none := by
  constructor
  · have h := (proxy_get_bounds [] [⟨"a", "s", "x"⟩, ⟨"b", "t", "Local"⟩] 1).1
      (by decide) (by decide)
    rw [h.1]; rfl
  · exact (proxy_get_bounds [] [⟨"a", "s", "x"⟩] 5).2 (by decide)
